import Mathlib

/-! Formal model of the Printer_control repository (files 3DPrinter.py and k2pro.py).

The two Python classes (Printer, K2Pro) drive a 3D printer over an HTTP control
plane.  We embed the safety-relevant logic shallowly:

* coordinates and limits are rationals (the Python code only adds and compares
  its floats);
* the remote machine is an oracle `RemoteStatus` recording the responses the
  HTTP endpoints would return, plus an `Http` record saying which requests
  succeed;
* Python exceptions become the `Exc` type (`printerError` for the library's
  own `PrinterError`, `other` for anything else);
* every side-effecting method returns its result together with a trace of
  observable events (`Ev`): precondition checks performed, validations
  performed, and G-code scripts posted to the printer.

G-code scripts are kept structurally (`GLine`) rather than as formatted text:
no claim depends on the decimal formatting of the command strings.
-/

set_option linter.unusedVariables false

/-- Structured payload of a raised `PrinterError`. -/
inductive ErrMsg where
  | httpFail (method : String) (path : String) (code : Nat)
  | notReady (st : String) (msg : String)
  | notHomed (axis : Char) (homed : String)
  | limitsNotInit
  | outOfRange (name : String) (v lo hi : ℚ)
  | badSpeed
  | refuseDz (dz maxdz : ℚ)
  | zBelowAirMin (z zmin : ℚ)
  | timeoutMoves
  | cannotConvert (name : String)
  | chamberNotFound (chamberLike : List String)
  | homingCancelled
deriving DecidableEq

/-- A Python exception: either the library's own `PrinterError` or some other
exception class (e.g. the `TypeError` reachable in `Printer.home` when the
limits cache is `None`). -/
inductive Exc where
  | printerError (m : ErrMsg)
  | other (name : String)
deriving DecidableEq

/-- True exactly on the library's `PrinterError` kind. -/
def isPE : Exc → Bool
  | Exc.printerError _ => true
  | Exc.other _ => false

/-- True when an `Except` result is an error. -/
def isErr {α : Type} : Except Exc α → Bool
  | Except.error _ => true
  | Except.ok _ => false

/-- One line of a G-code script, kept structurally. -/
inductive GLine where
  | g90
  | g91
  | g28 (axes : String)
  | m400
  | g1 (x y z : Option ℚ) (f : ℤ)
deriving DecidableEq

/-- Observable events of one library call, in execution order: successful
precondition re-checks, successful validations, a requested interactive
confirmation, and G-code scripts posted to the printer. -/
inductive Ev where
  | ready
  | homed (axes : String)
  | validated (x y z : ℚ)
  | confirmRequested
  | gcode (script : List GLine)
deriving DecidableEq

/-- Is this event a posted G-code script? -/
def isGcodeEv : Ev → Bool
  | Ev.gcode _ => true
  | _ => false

/-- Is this event a successful validator run? -/
def isValidatedEv : Ev → Bool
  | Ev.validated _ _ _ => true
  | _ => false

/-- Is this event a requested interactive confirmation? -/
def isConfirmEv : Ev → Bool
  | Ev.confirmRequested => true
  | _ => false

/-- Did the call post any G-code to the printer? -/
def hasGcode (tr : List Ev) : Bool := tr.any isGcodeEv

/-- Did the call run the point/envelope validator at least once? -/
def hasValidated (tr : List Ev) : Bool := tr.any isValidatedEv

/-- Cached axis limits: `toolhead.axis_minimum` / `toolhead.axis_maximum`. -/
structure Limits where
  xmin : ℚ
  xmax : ℚ
  ymin : ℚ
  ymax : ℚ
  zmin : ℚ
  zmax : ℚ
deriving DecidableEq

/-- Which HTTP requests succeed (`r.ok` in the Python code) and the status
codes reported when they do not. -/
structure Http where
  infoOk : Bool
  queryOk : Bool
  postOk : Bool
  infoCode : Nat
  queryCode : Nat
  postCode : Nat

/-- The remote machine as an oracle of endpoint responses: `/printer/info`
state, `toolhead.homed_axes`, the axis limits, and the successive values of
the `toolhead.moving` flag returned by repeated status polls. -/
structure RemoteStatus where
  state : String
  stateMessage : String
  homedAxes : String
  xmin : ℚ
  xmax : ℚ
  ymin : ℚ
  ymax : ℚ
  zmin : ℚ
  zmax : ℚ
  moving : Nat → Bool

/-- The axis limits carried by a status response. -/
def limitsOf (rs : RemoteStatus) : Limits :=
  ⟨rs.xmin, rs.xmax, rs.ymin, rs.ymax, rs.zmin, rs.zmax⟩

/-- Model of `PrinterConfig` (3DPrinter.py): attachment bounding-box offsets and the
Z travel speed.  Transport fields (base URL, API key) are not modelled. -/
structure PrinterConfig where
  attach_min_x : ℚ
  attach_max_x : ℚ
  attach_min_y : ℚ
  attach_max_y : ℚ
  attach_min_z : ℚ
  attach_max_z : ℚ
  z_speed_mm_s : ℚ

/-- Model of `K2ProConfig` (k2pro.py): the minimum Z for in-air motion. -/
structure K2ProConfig where
  z_air_min : ℚ

instance exceptDecEq {ε α : Type} [DecidableEq ε] [DecidableEq α] :
    DecidableEq (Except ε α) := fun x y =>
  match x, y with
  | Except.error a, Except.error b =>
    if h : a = b then Decidable.isTrue (by rw [h])
    else Decidable.isFalse (fun hh => h (Except.error.inj hh))
  | Except.error a, Except.ok b => Decidable.isFalse (fun hh => Except.noConfusion hh)
  | Except.ok a, Except.error b => Decidable.isFalse (fun hh => Except.noConfusion hh)
  | Except.ok a, Except.ok b =>
    if h : a = b then Decidable.isTrue (by rw [h])
    else Decidable.isFalse (fun hh => h (Except.ok.inj hh))

/-- ASCII lower-casing of one character (Python `str.lower`). -/
def charLower (c : Char) : Char :=
  if 65 ≤ c.toNat ∧ c.toNat ≤ 90 then Char.ofNat (c.toNat + 32) else c

/-- ASCII upper-casing of one character (Python `str.upper`). -/
def charUpper (c : Char) : Char :=
  if 97 ≤ c.toNat ∧ c.toNat ≤ 122 then Char.ofNat (c.toNat - 32) else c

/-- Python `str.lower` on the ASCII strings this library handles. -/
def pyLower (s : String) : String := ⟨s.data.map charLower⟩

/-- Python `str.upper` on the ASCII strings this library handles. -/
def pyUpper (s : String) : String := ⟨s.data.map charUpper⟩

/-- Whitespace as recognised by Python `str.strip`. -/
def isSpaceCh (c : Char) : Bool := c = ' ' ∨ c = '\t' ∨ c = '\n' ∨ c = '\r'

/-- Python `str.strip`: drop leading and trailing whitespace. -/
def pyStrip (s : String) : String :=
  ⟨((s.data.dropWhile isSpaceCh).reverse.dropWhile isSpaceCh).reverse⟩

/-- Python `int()` applied to a rational: truncation toward zero. -/
def pyInt (q : ℚ) : ℤ := if 0 ≤ q then q.floor else q.ceil

/-- Python float truthiness used in `move_relative` (`if dx:`): a coordinate
word is included exactly when the delta is nonzero. -/
def optQ (q : ℚ) : Option ℚ := if q = 0 then none else some q

/-- Model of `_range_check` (identical in both files): reject when the value is
strictly below `lo` or strictly above `hi`. -/
def range_check (v lo hi : ℚ) (name : String) : Except Exc Unit :=
  if v < lo ∨ v > hi then
    Except.error (Exc.printerError (ErrMsg.outOfRange name v lo hi))
  else Except.ok ()

/-- Model of `_ensure_ready` (identical in both files): `GET /printer/info`, then
require `state == "ready"`. -/
def ensure_ready (h : Http) (rs : RemoteStatus) : Except Exc Unit :=
  if h.infoOk then
    if rs.state = "ready" then Except.ok ()
    else Except.error (Exc.printerError (ErrMsg.notReady rs.state rs.stateMessage))
  else Except.error (Exc.printerError (ErrMsg.httpFail "GET" "/printer/info" h.infoCode))

/-- Body of `_ensure_homed`: each requested axis letter must occur in the
lower-cased `homed_axes` string. -/
def ensure_homedGo (homed : String) : List Char → Except Exc Unit
  | [] => Except.ok ()
  | a :: rest =>
    if (pyLower homed).data.contains a then ensure_homedGo homed rest
    else Except.error (Exc.printerError (ErrMsg.notHomed (charUpper a) homed))

/-- Model of `_ensure_homed` (identical in both files): a status query followed by a
per-axis membership check. -/
def ensure_homed (h : Http) (rs : RemoteStatus) (axes : String) : Except Exc Unit :=
  if h.queryOk then ensure_homedGo rs.homedAxes (pyLower axes).data
  else Except.error (Exc.printerError (ErrMsg.httpFail "GET" "/printer/objects/query" h.queryCode))

/-- One range check of `_check_xyz_with_attachment`, as data. -/
structure RC where
  name : String
  v : ℚ
  lo : ℚ
  hi : ℚ
deriving DecidableEq

/-- The rejection condition of `_range_check` for one check. -/
def rcFails (c : RC) : Prop := c.v < c.lo ∨ c.v > c.hi

instance rcFailsDec : DecidablePred rcFails := fun c =>
  inferInstanceAs (Decidable (c.v < c.lo ∨ c.v > c.hi))

/-- First failing check of a list, in order; `none` when all pass. -/
def firstViolation : List RC → Option RC
  | [] => none
  | c :: rest => if rcFails c then some c else firstViolation rest

/-- Run a list of range checks in order, stopping at the first failure. -/
def runChecks : List RC → Except Exc Unit
  | [] => Except.ok ()
  | c :: rest =>
    match range_check c.v c.lo c.hi c.name with
    | Except.error e => Except.error e
    | Except.ok _ => runChecks rest

/-- Model of `send_gcode`: a POST of the script; a non-2xx response raises. -/
def send_gcode (h : Http) (script : List GLine) : Except Exc Unit :=
  if h.postOk then Except.ok ()
  else Except.error (Exc.printerError (ErrMsg.httpFail "POST" "/printer/gcode/script" h.postCode))

/-- The `wait_moves` polling loop, fuelled.  Iteration `k` has performed `k`
sleeps of `poll` seconds (so `k * poll` models the elapsed time) and starts by
reading the `moving` flag; `Except.ok (r, s)` reports `r` status reads and `s`
sleeps. -/
def wait_movesGo (moving : Nat → Bool) (poll timeout : ℚ) :
    Nat → Nat → Option (Except Exc (Nat × Nat))
  | 0, _ => none
  | Nat.succ fuel, k =>
    if moving k = false then some (Except.ok (k + 1, k))
    else if timeout < (k : ℚ) * poll then
      some (Except.error (Exc.printerError ErrMsg.timeoutMoves))
    else wait_movesGo moving poll timeout fuel (k + 1)

/-- Fuel that always suffices for `wait_movesGo` when `0 < poll`. -/
def waitFuel (poll timeout : ℚ) : Nat := Nat.floor (timeout / poll) + 2

/-- Model of `wait_moves` (both files): each poll is a status query over HTTP; the
loop exits on `moving = false` or raises on timeout. -/
def wait_movesHttp (h : Http) (rs : RemoteStatus) (poll timeout : ℚ) :
    Except Exc (Nat × Nat) :=
  if h.queryOk then
    match wait_movesGo rs.moving poll timeout (waitFuel poll timeout) 0 with
    | some r => r
    | none => Except.error (Exc.printerError ErrMsg.timeoutMoves)
  else Except.error (Exc.printerError (ErrMsg.httpFail "GET" "/printer/objects/query" h.queryCode))

namespace Printer

/-- Model of `refresh_limits`: fetch the axis limits over HTTP and cache them. -/
def refresh_limits (h : Http) (rs : RemoteStatus) : Except Exc Limits :=
  if h.queryOk then Except.ok (limitsOf rs)
  else Except.error (Exc.printerError (ErrMsg.httpFail "GET" "/printer/objects/query" h.queryCode))

/-- The six checks of `_check_xyz_with_attachment`, in source order. -/
def attachChecks (l : Limits) (cfg : PrinterConfig) (x y z : ℚ) : List RC :=
  [⟨"X+attach_min_x", x + cfg.attach_min_x, l.xmin, l.xmax⟩,
   ⟨"X+attach_max_x", x + cfg.attach_max_x, l.xmin, l.xmax⟩,
   ⟨"Y+attach_min_y", y + cfg.attach_min_y, l.ymin, l.ymax⟩,
   ⟨"Y+attach_max_y", y + cfg.attach_max_y, l.ymin, l.ymax⟩,
   ⟨"Z+attach_min_z", z + cfg.attach_min_z, l.zmin, l.zmax⟩,
   ⟨"Z+attach_max_z", z + cfg.attach_max_z, l.zmin, l.zmax⟩]

/-- Model of `_check_xyz_with_attachment`: read the cached limits (raising when the
cache is empty), then range-check the six derived extreme points in order. -/
def check_xyz_with_attachment (lim : Option Limits) (cfg : PrinterConfig)
    (x y z : ℚ) : Except Exc Unit :=
  match lim with
  | none => Except.error (Exc.printerError ErrMsg.limitsNotInit)
  | some l =>
    match range_check (x + cfg.attach_min_x) l.xmin l.xmax "X+attach_min_x" with
    | Except.error e => Except.error e
    | Except.ok _ =>
    match range_check (x + cfg.attach_max_x) l.xmin l.xmax "X+attach_max_x" with
    | Except.error e => Except.error e
    | Except.ok _ =>
    match range_check (y + cfg.attach_min_y) l.ymin l.ymax "Y+attach_min_y" with
    | Except.error e => Except.error e
    | Except.ok _ =>
    match range_check (y + cfg.attach_max_y) l.ymin l.ymax "Y+attach_max_y" with
    | Except.error e => Except.error e
    | Except.ok _ =>
    match range_check (z + cfg.attach_min_z) l.zmin l.zmax "Z+attach_min_z" with
    | Except.error e => Except.error e
    | Except.ok _ =>
    match range_check (z + cfg.attach_max_z) l.zmin l.zmax "Z+attach_max_z" with
    | Except.error e => Except.error e
    | Except.ok _ => Except.ok ()

/-- Script posted by `move_absolute`: `G90` then one `G1`. -/
def absScript (x y z speed : ℚ) : List GLine :=
  [GLine.g90, GLine.g1 (some x) (some y) (some z) (pyInt (speed * 60))]

/-- Model of `Printer.move_absolute`: re-check ready and homed, check the speed,
validate the target with the attachment envelope, then post the move. -/
def move_absolute (h : Http) (rs : RemoteStatus) (cfg : PrinterConfig)
    (lim : Option Limits) (x y z speed : ℚ) (wait : Bool) :
    Except Exc Unit × List Ev :=
  match ensure_ready h rs with
  | Except.error e => (Except.error e, [])
  | Except.ok _ =>
  match ensure_homed h rs "xyz" with
  | Except.error e => (Except.error e, [Ev.ready])
  | Except.ok _ =>
  if speed ≤ 0 then
    (Except.error (Exc.printerError ErrMsg.badSpeed), [Ev.ready, Ev.homed "xyz"])
  else
    match check_xyz_with_attachment lim cfg x y z with
    | Except.error e => (Except.error e, [Ev.ready, Ev.homed "xyz"])
    | Except.ok _ =>
      let tr := [Ev.ready, Ev.homed "xyz", Ev.validated x y z,
                 Ev.gcode (absScript x y z speed)]
      match send_gcode h (absScript x y z speed) with
      | Except.error e => (Except.error e, tr)
      | Except.ok _ =>
        if wait then ((wait_movesHttp h rs (1/5) 120).map (fun _ => ()), tr)
        else (Except.ok (), tr)

/-- Script posted by `safe_y_pass`: lift, approach, contact, sweep along Y,
lift again. -/
def sweepScript (cfg : PrinterConfig)
    (x ys ye zs zc tspeed aspeed : ℚ) : List GLine :=
  [GLine.g90,
   GLine.g1 none none (some zs) (pyInt (cfg.z_speed_mm_s * 60)),
   GLine.g1 (some x) (some ys) none (pyInt (aspeed * 60)),
   GLine.g1 none none (some zc) (pyInt (cfg.z_speed_mm_s * 60)),
   GLine.g1 none (some ye) none (pyInt (tspeed * 60)),
   GLine.g1 none none (some zs) (pyInt (cfg.z_speed_mm_s * 60))]

/-- Model of `Printer.safe_y_pass`: re-check ready and homed, check the speeds,
validate all four key points with the attachment envelope, post the sweep
script, and optionally wait via `M400`. -/
def safe_y_pass (h : Http) (rs : RemoteStatus) (cfg : PrinterConfig)
    (lim : Option Limits) (x ys ye zs zc tspeed aspeed : ℚ) (wait : Bool) :
    Except Exc Unit × List Ev :=
  match ensure_ready h rs with
  | Except.error e => (Except.error e, [])
  | Except.ok _ =>
  match ensure_homed h rs "xyz" with
  | Except.error e => (Except.error e, [Ev.ready])
  | Except.ok _ =>
  if tspeed ≤ 0 ∨ aspeed ≤ 0 then
    (Except.error (Exc.printerError ErrMsg.badSpeed), [Ev.ready, Ev.homed "xyz"])
  else
    match check_xyz_with_attachment lim cfg x ys zs with
    | Except.error e => (Except.error e, [Ev.ready, Ev.homed "xyz"])
    | Except.ok _ =>
    match check_xyz_with_attachment lim cfg x ye zs with
    | Except.error e =>
      (Except.error e, [Ev.ready, Ev.homed "xyz", Ev.validated x ys zs])
    | Except.ok _ =>
    match check_xyz_with_attachment lim cfg x ys zc with
    | Except.error e =>
      (Except.error e,
       [Ev.ready, Ev.homed "xyz", Ev.validated x ys zs, Ev.validated x ye zs])
    | Except.ok _ =>
    match check_xyz_with_attachment lim cfg x ye zc with
    | Except.error e =>
      (Except.error e,
       [Ev.ready, Ev.homed "xyz", Ev.validated x ys zs, Ev.validated x ye zs,
        Ev.validated x ys zc])
    | Except.ok _ =>
      let tr := [Ev.ready, Ev.homed "xyz", Ev.validated x ys zs,
                 Ev.validated x ye zs, Ev.validated x ys zc, Ev.validated x ye zc,
                 Ev.gcode (sweepScript cfg x ys ye zs zc tspeed aspeed)]
      match send_gcode h (sweepScript cfg x ys ye zs zc tspeed aspeed) with
      | Except.error e => (Except.error e, tr)
      | Except.ok _ =>
        if wait then
          let tr2 := tr ++ [Ev.gcode [GLine.m400]]
          match send_gcode h [GLine.m400] with
          | Except.error e => (Except.error e, tr2)
          | Except.ok _ => (Except.ok (), tr2)
        else (Except.ok (), tr)

/-- Tail of `Printer.home` after the confirmation gate: send `G28`, wait via
`M400`, then move to the derived parking position.  Reading
`self._limits[0][1]` with an empty cache raises Python `TypeError`. -/
def homeRest (h : Http) (rs : RemoteStatus) (cfg : PrinterConfig)
    (lim : Option Limits) (axes : String) (tr0 : List Ev) :
    Except Exc Unit × List Ev :=
  match send_gcode h [GLine.g28 (pyUpper axes)] with
  | Except.error e => (Except.error e, tr0 ++ [Ev.gcode [GLine.g28 (pyUpper axes)]])
  | Except.ok _ =>
  match send_gcode h [GLine.m400] with
  | Except.error e =>
    (Except.error e,
     tr0 ++ [Ev.gcode [GLine.g28 (pyUpper axes)], Ev.gcode [GLine.m400]])
  | Except.ok _ =>
    match lim with
    | none =>
      (Except.error (Exc.other "TypeError"),
       tr0 ++ [Ev.gcode [GLine.g28 (pyUpper axes)], Ev.gcode [GLine.m400]])
    | some l =>
      let r := move_absolute h rs cfg (some l) (l.xmax / 2) (l.ymax / 2)
        (-cfg.attach_min_z + 10) 20 true
      (r.1, tr0 ++ [Ev.gcode [GLine.g28 (pyUpper axes)], Ev.gcode [GLine.m400]] ++ r.2)

/-- Model of `Printer.home`: re-check ready; with `confirm=True` ask for the typed
acknowledgment and raise unless it is exactly `CONFIRM`; then home and park. -/
def home (h : Http) (rs : RemoteStatus) (cfg : PrinterConfig)
    (lim : Option Limits) (axes : String) (confirm : Bool) (userInput : String) :
    Except Exc Unit × List Ev :=
  match ensure_ready h rs with
  | Except.error e => (Except.error e, [])
  | Except.ok _ =>
    if confirm then
      if pyUpper (pyStrip userInput) = "CONFIRM" then
        homeRest h rs cfg lim axes [Ev.ready, Ev.confirmRequested]
      else
        (Except.error (Exc.printerError ErrMsg.homingCancelled),
         [Ev.ready, Ev.confirmRequested])
    else homeRest h rs cfg lim axes [Ev.ready]

end Printer

/-- A Python value as seen by `_as_float`: either `float(v)` succeeds with
value `q`, or it raises. -/
inductive PyVal where
  | num (q : ℚ)
  | nonNumeric
deriving DecidableEq

/-- The dictionary a candidate thermal object resolves to: its optional
`temperature` and `target` fields. -/
structure ObjData where
  temperature : Option PyVal
  target : Option PyVal
deriving DecidableEq

/-- Model of `_as_float` applied to `data.get(key)`: a missing key gives Python `None`
and `float(None)` raises; any conversion failure is wrapped as
`PrinterError`. -/
def as_float (v : Option PyVal) (name : String) : Except Exc ℚ :=
  match v with
  | some (PyVal.num q) => Except.ok q
  | some PyVal.nonNumeric => Except.error (Exc.printerError (ErrMsg.cannotConvert name))
  | none => Except.error (Exc.printerError (ErrMsg.cannotConvert name))

/-- The remote side of chamber probing: for each candidate object name, either
the query raises (`Except.error`), resolves to no dictionary (`Except.ok
none`), or yields the object's fields; plus the discovery listing of
`/printer/objects/list`. -/
structure ChamberWorld where
  query : String → Except Exc (Option ObjData)
  listing : Except Exc (List String)

/-- Is `as` a prefix of `bs`? -/
def startsWith : List Char → List Char → Bool
  | [], _ => true
  | _ :: _, [] => false
  | a :: as2, b :: bs => decide (a = b) && startsWith as2 bs

/-- Does `p` occur as a contiguous sublist of the second list? -/
def subListCh (p : List Char) : List Char → Bool
  | [] => decide (p = [])
  | c :: rest => startsWith p (c :: rest) || subListCh p rest

/-- Python `"chamber" in o.lower()`. -/
def containsChamber (o : String) : Bool :=
  subListCh "chamber".data (pyLower o).data

namespace Printer

/-- The fixed candidate order of `get_chamber_temperature`. -/
def chamberCandidates : List String :=
  ["temperature_sensor chamber", "heater_generic chamber",
   "temperature_fan chamber", "chamber"]

/-- One iteration of the candidate loop (the `try` body): query the object,
skip it when it is not a dictionary, otherwise convert `temperature` and the
optional `target`; `Except.error` is the exception the `except` clause
catches. -/
def chamberTry (w : ChamberWorld) (obj : String) :
    Except Exc (Option (ℚ × Option ℚ)) :=
  match w.query obj with
  | Except.error e => Except.error e
  | Except.ok none => Except.ok none
  | Except.ok (some data) =>
    match as_float data.temperature (obj ++ ".temperature") with
    | Except.error e => Except.error e
    | Except.ok cur =>
      match data.target with
      | none => Except.ok (some (cur, none))
      | some t =>
        match as_float (some t) (obj ++ ".target") with
        | Except.error e => Except.error e
        | Except.ok tq => Except.ok (some (cur, some tq))

/-- The candidate loop of `get_chamber_temperature`: return the first
successful reading, remembering the last caught exception. -/
def chamberLoop (w : ChamberWorld) :
    List String → Option Exc → Option (ℚ × Option ℚ) × Option Exc
  | [], lastErr => (none, lastErr)
  | obj :: rest, lastErr =>
    match chamberTry w obj with
    | Except.ok (some r) => (some r, lastErr)
    | Except.ok none => chamberLoop w rest lastErr
    | Except.error e => chamberLoop w rest (some e)

/-- The `chamber_like` hint built from the discovery listing; an exception
during discovery leaves the hint empty. -/
def discoveryChamberLike (w : ChamberWorld) : List String :=
  match w.listing with
  | Except.ok objs => objs.filter containsChamber
  | Except.error _ => []

/-- Model of `Printer.get_chamber_temperature`: probe the candidates in order and
return the first well-formed reading; when all fail, raise a `PrinterError`
carrying the discovery hint. -/
def get_chamber_temperature (w : ChamberWorld) : Except Exc (ℚ × Option ℚ) :=
  match chamberLoop w chamberCandidates none with
  | (some r, _) => Except.ok r
  | (none, _) => Except.error (Exc.printerError (ErrMsg.chamberNotFound (discoveryChamberLike w)))

/-- Modelled from the spec: "accepts the first candidate whose status
resolves to a mapping with a numeric temperature field (a missing target
yields target=None; a non-numeric field makes that candidate fail)".  This is
the specification-side reading of one candidate, compared against the
source-side loop by claim C5. -/
def specCandidateReading (w : ChamberWorld) (obj : String) :
    Option (ℚ × Option ℚ) :=
  match w.query obj with
  | Except.ok (some data) =>
    match data.temperature, data.target with
    | some (PyVal.num c), none => some (c, none)
    | some (PyVal.num c), some (PyVal.num t) => some (c, some t)
    | _, _ => none
  | _ => none

/-- First defined value in a list of optional results. -/
def firstSome {α : Type} : List (Option α) → Option α
  | [] => none
  | o :: rest =>
    match o with
    | some a => some a
    | none => firstSome rest

end Printer

namespace K2Pro

/-- Model of `get_limits` (k2pro.py): fetch the axis limits over HTTP. -/
def get_limits (h : Http) (rs : RemoteStatus) : Except Exc Limits :=
  if h.queryOk then Except.ok (limitsOf rs)
  else Except.error (Exc.printerError (ErrMsg.httpFail "GET" "/printer/objects/query" h.queryCode))

/-- Model of `validate_point_air`: the point must be inside the fetched axis limits and
`z` must not be below `cfg.z_air_min`. -/
def validate_point_air (h : Http) (rs : RemoteStatus) (cfg : K2ProConfig)
    (x y z : ℚ) : Except Exc Unit :=
  match get_limits h rs with
  | Except.error e => Except.error e
  | Except.ok l =>
    match range_check x l.xmin l.xmax "X" with
    | Except.error e => Except.error e
    | Except.ok _ =>
    match range_check y l.ymin l.ymax "Y" with
    | Except.error e => Except.error e
    | Except.ok _ =>
    match range_check z l.zmin l.zmax "Z" with
    | Except.error e => Except.error e
    | Except.ok _ =>
      if z < cfg.z_air_min then
        Except.error (Exc.printerError (ErrMsg.zBelowAirMin z cfg.z_air_min))
      else Except.ok ()

/-- Script posted by `move_relative`: `G91`, one `G1` carrying only the
nonzero deltas, `G90`. -/
def relScript (dx dy dz : ℚ) (feed : ℤ) : List GLine :=
  [GLine.g91, GLine.g1 (optQ dx) (optQ dy) (optQ dz) feed, GLine.g90]

/-- Model of `K2Pro.move_relative`: re-check ready and homed, refuse a Z delta larger
in magnitude than `max_abs_dz`, return silently when all deltas are zero,
otherwise post the relative move.  No point/envelope validator is invoked. -/
def move_relative (h : Http) (rs : RemoteStatus) (dx dy dz : ℚ) (feed : ℤ)
    (wait : Bool) (maxdz : ℚ) : Except Exc Unit × List Ev :=
  match ensure_ready h rs with
  | Except.error e => (Except.error e, [])
  | Except.ok _ =>
  match ensure_homed h rs "xyz" with
  | Except.error e => (Except.error e, [Ev.ready])
  | Except.ok _ =>
  if maxdz < |dz| then
    (Except.error (Exc.printerError (ErrMsg.refuseDz dz maxdz)), [Ev.ready, Ev.homed "xyz"])
  else if dx = 0 ∧ dy = 0 ∧ dz = 0 then (Except.ok (), [Ev.ready, Ev.homed "xyz"])
  else
    let tr := [Ev.ready, Ev.homed "xyz", Ev.gcode (relScript dx dy dz feed)]
    match send_gcode h (relScript dx dy dz feed) with
    | Except.error e => (Except.error e, tr)
    | Except.ok _ =>
      if wait then ((wait_movesHttp h rs (1/5) 60).map (fun _ => ()), tr)
      else (Except.ok (), tr)

/-- Script posted by `move_line_air`: `G90` then the two straight-line `G1`
moves. -/
def lineScript (x1 y1 z1 x2 y2 z2 speed : ℚ) : List GLine :=
  [GLine.g90,
   GLine.g1 (some x1) (some y1) (some z1) (pyInt (speed * 60)),
   GLine.g1 (some x2) (some y2) (some z2) (pyInt (speed * 60))]

/-- Model of `K2Pro.move_line_air`: re-check ready and homed, check the speed,
validate both endpoints in air mode, then post the two-segment script. -/
def move_line_air (h : Http) (rs : RemoteStatus) (cfg : K2ProConfig)
    (x1 y1 z1 x2 y2 z2 speed : ℚ) (wait : Bool) : Except Exc Unit × List Ev :=
  match ensure_ready h rs with
  | Except.error e => (Except.error e, [])
  | Except.ok _ =>
  match ensure_homed h rs "xyz" with
  | Except.error e => (Except.error e, [Ev.ready])
  | Except.ok _ =>
  if speed ≤ 0 then
    (Except.error (Exc.printerError ErrMsg.badSpeed), [Ev.ready, Ev.homed "xyz"])
  else
    match validate_point_air h rs cfg x1 y1 z1 with
    | Except.error e => (Except.error e, [Ev.ready, Ev.homed "xyz"])
    | Except.ok _ =>
    match validate_point_air h rs cfg x2 y2 z2 with
    | Except.error e =>
      (Except.error e, [Ev.ready, Ev.homed "xyz", Ev.validated x1 y1 z1])
    | Except.ok _ =>
      let tr := [Ev.ready, Ev.homed "xyz", Ev.validated x1 y1 z1,
                 Ev.validated x2 y2 z2,
                 Ev.gcode (lineScript x1 y1 z1 x2 y2 z2 speed)]
      match send_gcode h (lineScript x1 y1 z1 x2 y2 z2 speed) with
      | Except.error e => (Except.error e, tr)
      | Except.ok _ =>
        if wait then ((wait_movesHttp h rs (1/5) 60).map (fun _ => ()), tr)
        else (Except.ok (), tr)

/-- Model of `K2Pro.home`: re-check ready, then immediately send `G28` — there is no
confirmation gate in this class. -/
def home (h : Http) (rs : RemoteStatus) (axes : String) :
    Except Exc Unit × List Ev :=
  match ensure_ready h rs with
  | Except.error e => (Except.error e, [])
  | Except.ok _ =>
    (send_gcode h [GLine.g28 (pyUpper axes)], [Ev.ready, Ev.gcode [GLine.g28 (pyUpper axes)]])

end K2Pro

/-- Is the result either a success or a `PrinterError`?  (I.e. not some other
Python exception class.) -/
def errPE {α : Type} : Except Exc α → Bool
  | Except.error e => isPE e
  | Except.ok _ => true

/-- A fully healthy transport: every request succeeds. -/
def hW : Http := ⟨true, true, true, 200, 200, 200⟩

/-- A transport whose status query fails with HTTP 500. -/
def hBad : Http := ⟨true, false, true, 200, 500, 200⟩

/-- A ready, fully homed machine with limits X,Y ∈ [0,400], Z ∈ [0,450] that
is never moving. -/
def rsW : RemoteStatus := ⟨"ready", "", "xyz", 0, 400, 0, 400, 0, 450, fun _ => false⟩

/-- The same machine, but its `moving` flag stays true forever. -/
def rsMov : RemoteStatus := ⟨"ready", "", "xyz", 0, 400, 0, 400, 0, 450, fun _ => true⟩

/-- The axis limits of `rsW`, as a cache value. -/
def limW : Limits := ⟨0, 400, 0, 400, 0, 450⟩

/-- The attachment envelope used in the docstrings of 3DPrinter.py. -/
def cfgW : PrinterConfig := ⟨-5, 30, 0, 20, -12, 0, 8⟩

/-- A K2Pro configuration with a 30 mm in-air floor. -/
def kcfgW : K2ProConfig := ⟨30⟩

/-- A chamber world with no chamber object at all and a failing discovery
listing. -/
def wEmpty : ChamberWorld :=
  ⟨fun _ => Except.ok none, Except.error (Exc.other "HTTPError")⟩

/-- A chamber world where only the `temperature_fan chamber` candidate
resolves, with a numeric target. -/
def wFan : ChamberWorld :=
  ⟨fun obj =>
    if obj = "temperature_fan chamber" then
      Except.ok (some ⟨some (PyVal.num 37), some (PyVal.num 40)⟩)
    else Except.ok none,
   Except.ok ["temperature_fan chamber"]⟩

theorem range_check_ok_iff (v lo hi : ℚ) (n : String) :
    range_check v lo hi n = Except.ok () ↔ lo ≤ v ∧ v ≤ hi := by
  unfold range_check
  split_ifs with hc
  · refine iff_of_false (by simp) ?_
    intro h
    rcases hc with hc | hc
    · exact absurd h.1 (not_le.mpr hc)
    · exact absurd h.2 (not_le.mpr hc)
  · push_neg at hc
    exact iff_of_true rfl hc

theorem runChecks_cons (c : RC) (rest : List RC) :
    runChecks (c :: rest) =
      if rcFails c then
        Except.error (Exc.printerError (ErrMsg.outOfRange c.name c.v c.lo c.hi))
      else runChecks rest := by
  simp only [runChecks, range_check, rcFails]
  split_ifs with hc <;> rfl

theorem runChecks_eq_firstViolation (cs : List RC) :
    runChecks cs =
      match firstViolation cs with
      | some c => Except.error (Exc.printerError (ErrMsg.outOfRange c.name c.v c.lo c.hi))
      | none => Except.ok () := by
  induction cs with
  | nil => rfl
  | cons c rest ih =>
    rw [runChecks_cons]
    simp only [firstViolation]
    split_ifs with hc
    · rfl
    · exact ih

theorem runChecks_ok_iff (cs : List RC) :
    runChecks cs = Except.ok () ↔ ∀ c ∈ cs, ¬ rcFails c := by
  induction cs with
  | nil => simp [runChecks]
  | cons c rest ih =>
    rw [runChecks_cons]
    split_ifs with hc
    · refine iff_of_false (by simp) ?_
      intro h
      exact absurd hc (h c (List.mem_cons_self c rest))
    · rw [ih]
      constructor
      · intro h d hd
        rcases List.mem_cons.mp hd with rfl | hd2
        · exact hc
        · exact h d hd2
      · intro h d hd
        exact h d (List.mem_cons_of_mem c hd)

theorem check_xyz_eq_runChecks (l : Limits) (cfg : PrinterConfig) (x y z : ℚ) :
    Printer.check_xyz_with_attachment (some l) cfg x y z =
      runChecks (Printer.attachChecks l cfg x y z) := rfl

/-- C1: the safety validator `_check_xyz_with_attachment`, over cached limits
and an attachment envelope with min ≤ max per axis, accepts exactly when, per
axis, both derived extremes `point+min_offset` and `point+max_offset` lie
within `[axis_min, axis_max]`; on a violation it raises a `PrinterError`
naming the offending axis/offset at the first failing check, in the order
X+attach_min_x, X+attach_max_x, Y+attach_min_y, Y+attach_max_y,
Z+attach_min_z, Z+attach_max_z, aggregating nothing; and every point strictly
inside the limits shrunk by the per-axis maximum offset magnitude is
accepted. -/
theorem C1_validator_characterization (l : Limits) (cfg : PrinterConfig)
    (x y z : ℚ)
    (hvx : cfg.attach_min_x ≤ cfg.attach_max_x)
    (hvy : cfg.attach_min_y ≤ cfg.attach_max_y)
    (hvz : cfg.attach_min_z ≤ cfg.attach_max_z) :
    (Printer.check_xyz_with_attachment (some l) cfg x y z = Except.ok () ↔
      ((l.xmin ≤ x + cfg.attach_min_x ∧ x + cfg.attach_min_x ≤ l.xmax) ∧
       (l.xmin ≤ x + cfg.attach_max_x ∧ x + cfg.attach_max_x ≤ l.xmax) ∧
       (l.ymin ≤ y + cfg.attach_min_y ∧ y + cfg.attach_min_y ≤ l.ymax) ∧
       (l.ymin ≤ y + cfg.attach_max_y ∧ y + cfg.attach_max_y ≤ l.ymax) ∧
       (l.zmin ≤ z + cfg.attach_min_z ∧ z + cfg.attach_min_z ≤ l.zmax) ∧
       (l.zmin ≤ z + cfg.attach_max_z ∧ z + cfg.attach_max_z ≤ l.zmax))) ∧
    (Printer.check_xyz_with_attachment (some l) cfg x y z =
      match firstViolation (Printer.attachChecks l cfg x y z) with
      | some c => Except.error (Exc.printerError (ErrMsg.outOfRange c.name c.v c.lo c.hi))
      | none => Except.ok ()) ∧
    ((l.xmin + max |cfg.attach_min_x| |cfg.attach_max_x| < x ∧
      x < l.xmax - max |cfg.attach_min_x| |cfg.attach_max_x| ∧
      l.ymin + max |cfg.attach_min_y| |cfg.attach_max_y| < y ∧
      y < l.ymax - max |cfg.attach_min_y| |cfg.attach_max_y| ∧
      l.zmin + max |cfg.attach_min_z| |cfg.attach_max_z| < z ∧
      z < l.zmax - max |cfg.attach_min_z| |cfg.attach_max_z|) →
      Printer.check_xyz_with_attachment (some l) cfg x y z = Except.ok ()) := by
  have hiff : Printer.check_xyz_with_attachment (some l) cfg x y z = Except.ok () ↔
      ((l.xmin ≤ x + cfg.attach_min_x ∧ x + cfg.attach_min_x ≤ l.xmax) ∧
       (l.xmin ≤ x + cfg.attach_max_x ∧ x + cfg.attach_max_x ≤ l.xmax) ∧
       (l.ymin ≤ y + cfg.attach_min_y ∧ y + cfg.attach_min_y ≤ l.ymax) ∧
       (l.ymin ≤ y + cfg.attach_max_y ∧ y + cfg.attach_max_y ≤ l.ymax) ∧
       (l.zmin ≤ z + cfg.attach_min_z ∧ z + cfg.attach_min_z ≤ l.zmax) ∧
       (l.zmin ≤ z + cfg.attach_max_z ∧ z + cfg.attach_max_z ≤ l.zmax)) := by
    rw [check_xyz_eq_runChecks, runChecks_ok_iff]
    simp only [Printer.attachChecks, List.mem_cons, List.not_mem_nil, or_false,
      forall_eq_or_imp, forall_eq, rcFails, not_or, not_lt]
  refine ⟨hiff, ?_, ?_⟩
  · rw [check_xyz_eq_runChecks, runChecks_eq_firstViolation]
  · intro hins
    obtain ⟨h1, h2, h3, h4, h5, h6⟩ := hins
    have ax1 : -(max |cfg.attach_min_x| |cfg.attach_max_x|) ≤ cfg.attach_min_x := by
      have ha := neg_abs_le cfg.attach_min_x
      have hb := le_max_left |cfg.attach_min_x| |cfg.attach_max_x|
      linarith
    have ax2 : cfg.attach_min_x ≤ max |cfg.attach_min_x| |cfg.attach_max_x| :=
      (le_abs_self _).trans (le_max_left _ _)
    have ax3 : -(max |cfg.attach_min_x| |cfg.attach_max_x|) ≤ cfg.attach_max_x := by
      have ha := neg_abs_le cfg.attach_max_x
      have hb := le_max_right |cfg.attach_min_x| |cfg.attach_max_x|
      linarith
    have ax4 : cfg.attach_max_x ≤ max |cfg.attach_min_x| |cfg.attach_max_x| :=
      (le_abs_self _).trans (le_max_right _ _)
    have ay1 : -(max |cfg.attach_min_y| |cfg.attach_max_y|) ≤ cfg.attach_min_y := by
      have ha := neg_abs_le cfg.attach_min_y
      have hb := le_max_left |cfg.attach_min_y| |cfg.attach_max_y|
      linarith
    have ay2 : cfg.attach_min_y ≤ max |cfg.attach_min_y| |cfg.attach_max_y| :=
      (le_abs_self _).trans (le_max_left _ _)
    have ay3 : -(max |cfg.attach_min_y| |cfg.attach_max_y|) ≤ cfg.attach_max_y := by
      have ha := neg_abs_le cfg.attach_max_y
      have hb := le_max_right |cfg.attach_min_y| |cfg.attach_max_y|
      linarith
    have ay4 : cfg.attach_max_y ≤ max |cfg.attach_min_y| |cfg.attach_max_y| :=
      (le_abs_self _).trans (le_max_right _ _)
    have az1 : -(max |cfg.attach_min_z| |cfg.attach_max_z|) ≤ cfg.attach_min_z := by
      have ha := neg_abs_le cfg.attach_min_z
      have hb := le_max_left |cfg.attach_min_z| |cfg.attach_max_z|
      linarith
    have az2 : cfg.attach_min_z ≤ max |cfg.attach_min_z| |cfg.attach_max_z| :=
      (le_abs_self _).trans (le_max_left _ _)
    have az3 : -(max |cfg.attach_min_z| |cfg.attach_max_z|) ≤ cfg.attach_max_z := by
      have ha := neg_abs_le cfg.attach_max_z
      have hb := le_max_right |cfg.attach_min_z| |cfg.attach_max_z|
      linarith
    have az4 : cfg.attach_max_z ≤ max |cfg.attach_min_z| |cfg.attach_max_z| :=
      (le_abs_self _).trans (le_max_right _ _)
    exact hiff.mpr
      ⟨⟨by linarith, by linarith⟩, ⟨by linarith, by linarith⟩,
       ⟨by linarith, by linarith⟩, ⟨by linarith, by linarith⟩,
       ⟨by linarith, by linarith⟩, ⟨by linarith, by linarith⟩⟩

/-- Witness for C1 at a concrete machine: limits X,Y ∈ [0,400], Z ∈ [0,450],
the docstring envelope, and the interior point (100,100,100). -/
theorem C1_witness :
    Printer.check_xyz_with_attachment (some limW) cfgW 100 100 100 = Except.ok () :=
  (C1_validator_characterization limW cfgW 100 100 100
      (by norm_num [cfgW]) (by norm_num [cfgW]) (by norm_num [cfgW])).1.mpr
    (by norm_num [cfgW, limW])

theorem wait_movesGo_all_moving (moving : Nat → Bool) (poll timeout : ℚ)
    (hall : ∀ j, moving j = true) :
    ∀ (fuel k : Nat), timeout < ((k + fuel : Nat) : ℚ) * poll →
      wait_movesGo moving poll timeout (fuel + 1) k =
        some (Except.error (Exc.printerError ErrMsg.timeoutMoves)) := by
  intro fuel
  induction fuel with
  | zero =>
    intro k hk
    simp only [Nat.add_zero] at hk
    unfold wait_movesGo
    simp [hall k, hk]
  | succ fuel ih =>
    intro k hk
    unfold wait_movesGo
    by_cases hto : timeout < (k : ℚ) * poll
    · simp [hall k, hto]
    · have hk2 : timeout < (((k + 1) + fuel : Nat) : ℚ) * poll := by
        have heq : k + (fuel + 1) = (k + 1) + fuel := by omega
        rw [heq] at hk
        exact hk
      simp only [hall k, Bool.true_eq_false, if_false, hto]
      exact ih (k + 1) hk2

theorem wait_movesHttp_timeout (h : Http) (rs : RemoteStatus) (poll timeout : ℚ)
    (hq : h.queryOk = true) (hpoll : 0 < poll) (hall : ∀ j, rs.moving j = true) :
    wait_movesHttp h rs poll timeout =
      Except.error (Exc.printerError ErrMsg.timeoutMoves) := by
  unfold wait_movesHttp
  rw [if_pos hq]
  have hbound : timeout < ((0 + (Nat.floor (timeout / poll) + 1) : Nat) : ℚ) * poll := by
    have h1 : timeout / poll < ((Nat.floor (timeout / poll) : ℚ) + 1) :=
      Nat.lt_floor_add_one (timeout / poll)
    have h2 : timeout / poll * poll < ((Nat.floor (timeout / poll) : ℚ) + 1) * poll :=
      mul_lt_mul_of_pos_right h1 hpoll
    rw [div_mul_cancel₀ timeout (ne_of_gt hpoll)] at h2
    push_cast
    linarith
  have hgo := wait_movesGo_all_moving rs.moving poll timeout hall
    (Nat.floor (timeout / poll) + 1) 0 hbound
  have hfuel : waitFuel poll timeout = (Nat.floor (timeout / poll) + 1) + 1 := rfl
  rw [hfuel, hgo]

/-- C4: `wait_moves` returns after a single status read and zero sleeps when
the reported `moving` flag is false; while the flag is true and the elapsed
time has not exceeded the timeout it re-polls after one fixed-interval sleep;
and when the flag stays true forever it raises `PrinterError` once the
elapsed time (sleeps × poll interval) exceeds the configured timeout. -/
theorem C4_wait_moves (h : Http) (rs : RemoteStatus) (moving : Nat → Bool)
    (poll timeout : ℚ) (fuel k : Nat) :
    (h.queryOk = true → rs.moving 0 = false →
      wait_movesHttp h rs poll timeout = Except.ok (1, 0)) ∧
    (moving k = true → ¬ timeout < (k : ℚ) * poll →
      wait_movesGo moving poll timeout (fuel + 1) k =
        wait_movesGo moving poll timeout fuel (k + 1)) ∧
    (h.queryOk = true → 0 < poll → (∀ j, rs.moving j = true) →
      wait_movesHttp h rs poll timeout =
        Except.error (Exc.printerError ErrMsg.timeoutMoves)) := by
  refine ⟨?_, ?_, ?_⟩
  · intro hq hmov
    unfold wait_movesHttp
    rw [if_pos hq]
    have hfuel : waitFuel poll timeout = (Nat.floor (timeout / poll) + 1) + 1 := rfl
    rw [hfuel]
    unfold wait_movesGo
    simp [hmov]
  · intro hmov hto
    conv_lhs => unfold wait_movesGo
    simp only [hmov, Bool.true_eq_false, if_false, hto]
  · intro hq hpoll hall
    exact wait_movesHttp_timeout h rs poll timeout hq hpoll hall

/-- Witness for C4: with a 1-second interval and 2-second timeout, an idle
machine returns `(1 read, 0 sleeps)` at once, and a machine that never stops
moving raises the timeout `PrinterError`. -/
theorem C4_witness :
    wait_movesHttp hW rsW 1 2 = Except.ok (1, 0) ∧
    wait_movesHttp hW rsMov 1 2 = Except.error (Exc.printerError ErrMsg.timeoutMoves) :=
  ⟨(C4_wait_moves hW rsW rsW.moving 1 2 0 0).1 rfl rfl,
   (C4_wait_moves hW rsMov rsMov.moving 1 2 0 0).2.2 rfl (by norm_num) (fun j => rfl)⟩

theorem move_absolute_trace (h : Http) (rs : RemoteStatus) (cfg : PrinterConfig)
    (lim : Option Limits) (x y z s : ℚ) (w : Bool) :
    (Printer.move_absolute h rs cfg lim x y z s w).2 =
      [Ev.ready, Ev.homed "xyz", Ev.validated x y z,
       Ev.gcode (Printer.absScript x y z s)] ∨
    hasGcode (Printer.move_absolute h rs cfg lim x y z s w).2 = false := by
  unfold Printer.move_absolute
  cases hr : ensure_ready h rs with
  | error e => right; rfl
  | ok u =>
    cases hh : ensure_homed h rs "xyz" with
    | error e => right; rfl
    | ok u2 =>
      by_cases hs : s ≤ 0
      · right; rw [if_pos hs]; rfl
      · rw [if_neg hs]
        cases hc : Printer.check_xyz_with_attachment lim cfg x y z with
        | error e => right; rfl
        | ok u3 =>
          cases hg : send_gcode h (Printer.absScript x y z s) with
          | error e => left; rfl
          | ok u4 =>
            cases w
            · left; rfl
            · left; rfl

theorem move_line_air_trace (h : Http) (rs : RemoteStatus) (cfg : K2ProConfig)
    (x1 y1 z1 x2 y2 z2 s : ℚ) (w : Bool) :
    (K2Pro.move_line_air h rs cfg x1 y1 z1 x2 y2 z2 s w).2 =
      [Ev.ready, Ev.homed "xyz", Ev.validated x1 y1 z1, Ev.validated x2 y2 z2,
       Ev.gcode (K2Pro.lineScript x1 y1 z1 x2 y2 z2 s)] ∨
    hasGcode (K2Pro.move_line_air h rs cfg x1 y1 z1 x2 y2 z2 s w).2 = false := by
  unfold K2Pro.move_line_air
  cases hr : ensure_ready h rs with
  | error e => right; rfl
  | ok u =>
    cases hh : ensure_homed h rs "xyz" with
    | error e => right; rfl
    | ok u2 =>
      by_cases hs : s ≤ 0
      · right; rw [if_pos hs]; rfl
      · rw [if_neg hs]
        cases hc1 : K2Pro.validate_point_air h rs cfg x1 y1 z1 with
        | error e => right; rfl
        | ok u3 =>
          cases hc2 : K2Pro.validate_point_air h rs cfg x2 y2 z2 with
          | error e => right; rfl
          | ok u4 =>
            cases hg : send_gcode h (K2Pro.lineScript x1 y1 z1 x2 y2 z2 s) with
            | error e => left; rfl
            | ok u5 =>
              cases w
              · left; rfl
              · left; rfl

theorem move_relative_trace (h : Http) (rs : RemoteStatus) (dx dy dz : ℚ)
    (feed : ℤ) (w : Bool) (maxdz : ℚ) :
    (K2Pro.move_relative h rs dx dy dz feed w maxdz).2 =
      [Ev.ready, Ev.homed "xyz", Ev.gcode (K2Pro.relScript dx dy dz feed)] ∨
    hasGcode (K2Pro.move_relative h rs dx dy dz feed w maxdz).2 = false := by
  unfold K2Pro.move_relative
  cases hr : ensure_ready h rs with
  | error e => right; rfl
  | ok u =>
    cases hh : ensure_homed h rs "xyz" with
    | error e => right; rfl
    | ok u2 =>
      by_cases hdz : maxdz < |dz|
      · right; rw [if_pos hdz]; rfl
      · rw [if_neg hdz]
        by_cases hzero : dx = 0 ∧ dy = 0 ∧ dz = 0
        · right; rw [if_pos hzero]; rfl
        · rw [if_neg hzero]
          cases hg : send_gcode h (K2Pro.relScript dx dy dz feed) with
          | error e => left; rfl
          | ok u3 =>
            cases w
            · left; rfl
            · left; rfl

theorem safe_y_pass_trace (h : Http) (rs : RemoteStatus) (cfg : PrinterConfig)
    (lim : Option Limits) (x ys ye zs zc ts aps : ℚ) (w : Bool) :
    (Printer.safe_y_pass h rs cfg lim x ys ye zs zc ts aps w).2 =
      [Ev.ready, Ev.homed "xyz", Ev.validated x ys zs, Ev.validated x ye zs,
       Ev.validated x ys zc, Ev.validated x ye zc,
       Ev.gcode (Printer.sweepScript cfg x ys ye zs zc ts aps)] ∨
    (Printer.safe_y_pass h rs cfg lim x ys ye zs zc ts aps w).2 =
      [Ev.ready, Ev.homed "xyz", Ev.validated x ys zs, Ev.validated x ye zs,
       Ev.validated x ys zc, Ev.validated x ye zc,
       Ev.gcode (Printer.sweepScript cfg x ys ye zs zc ts aps),
       Ev.gcode [GLine.m400]] ∨
    hasGcode (Printer.safe_y_pass h rs cfg lim x ys ye zs zc ts aps w).2 = false := by
  unfold Printer.safe_y_pass
  cases hr : ensure_ready h rs with
  | error e => right; right; rfl
  | ok u =>
    cases hh : ensure_homed h rs "xyz" with
    | error e => right; right; rfl
    | ok u2 =>
      by_cases hs : ts ≤ 0 ∨ aps ≤ 0
      · right; right; rw [if_pos hs]; rfl
      · rw [if_neg hs]
        cases hc1 : Printer.check_xyz_with_attachment lim cfg x ys zs with
        | error e => right; right; rfl
        | ok u3 =>
          cases hc2 : Printer.check_xyz_with_attachment lim cfg x ye zs with
          | error e => right; right; rfl
          | ok u4 =>
            cases hc3 : Printer.check_xyz_with_attachment lim cfg x ys zc with
            | error e => right; right; rfl
            | ok u5 =>
              cases hc4 : Printer.check_xyz_with_attachment lim cfg x ye zc with
              | error e => right; right; rfl
              | ok u6 =>
                cases hg : send_gcode h (Printer.sweepScript cfg x ys ye zs zc ts aps) with
                | error e => left; rfl
                | ok u7 =>
                  cases w
                  · left; rfl
                  · cases hg2 : send_gcode h [GLine.m400] with
                    | error e => right; left; rfl
                    | ok u8 => right; left; rfl

/-- C2 (amended): the absolute move, the two-point line move and the Y-sweep
each either post no G-code at all, or produce exactly the trace in which the
ready re-check, the homed re-check and the point/envelope validator runs all
precede the posted script; the relative move also re-checks ready and homed
before posting, but invokes no point/envelope validator at all — its sending
trace contains no validation event. -/
theorem C2_checks_precede_sends (h : Http) (rs : RemoteStatus)
    (cfg : PrinterConfig) (kcfg : K2ProConfig) (lim : Option Limits)
    (x y z s ys ye zs zc ts aps x1 y1 z1 x2 y2 z2 dx dy dz maxdz : ℚ)
    (feed : ℤ) (w : Bool) :
    ((Printer.move_absolute h rs cfg lim x y z s w).2 =
        [Ev.ready, Ev.homed "xyz", Ev.validated x y z,
         Ev.gcode (Printer.absScript x y z s)] ∨
      hasGcode (Printer.move_absolute h rs cfg lim x y z s w).2 = false) ∧
    ((K2Pro.move_line_air h rs kcfg x1 y1 z1 x2 y2 z2 s w).2 =
        [Ev.ready, Ev.homed "xyz", Ev.validated x1 y1 z1, Ev.validated x2 y2 z2,
         Ev.gcode (K2Pro.lineScript x1 y1 z1 x2 y2 z2 s)] ∨
      hasGcode (K2Pro.move_line_air h rs kcfg x1 y1 z1 x2 y2 z2 s w).2 = false) ∧
    ((Printer.safe_y_pass h rs cfg lim x ys ye zs zc ts aps w).2 =
        [Ev.ready, Ev.homed "xyz", Ev.validated x ys zs, Ev.validated x ye zs,
         Ev.validated x ys zc, Ev.validated x ye zc,
         Ev.gcode (Printer.sweepScript cfg x ys ye zs zc ts aps)] ∨
      (Printer.safe_y_pass h rs cfg lim x ys ye zs zc ts aps w).2 =
        [Ev.ready, Ev.homed "xyz", Ev.validated x ys zs, Ev.validated x ye zs,
         Ev.validated x ys zc, Ev.validated x ye zc,
         Ev.gcode (Printer.sweepScript cfg x ys ye zs zc ts aps),
         Ev.gcode [GLine.m400]] ∨
      hasGcode (Printer.safe_y_pass h rs cfg lim x ys ye zs zc ts aps w).2 = false) ∧
    ((K2Pro.move_relative h rs dx dy dz feed w maxdz).2 =
        [Ev.ready, Ev.homed "xyz", Ev.gcode (K2Pro.relScript dx dy dz feed)] ∨
      hasGcode (K2Pro.move_relative h rs dx dy dz feed w maxdz).2 = false) :=
  ⟨move_absolute_trace h rs cfg lim x y z s w,
   move_line_air_trace h rs kcfg x1 y1 z1 x2 y2 z2 s w,
   safe_y_pass_trace h rs cfg lim x ys ye zs zc ts aps w,
   move_relative_trace h rs dx dy dz feed w maxdz⟩

/-- Counterexample to C2 as stated: on a ready, fully homed machine,
`K2Pro.move_relative` posts a motion G-code while its trace contains no
point/envelope validator run at all — the relative move is not preceded by
the validator. -/
theorem C2_counterexample :
    hasGcode (K2Pro.move_relative hW rsW 100 0 0 3000 false 5).2 = true ∧
    hasValidated (K2Pro.move_relative hW rsW 100 0 0 3000 false 5).2 = false := by
  constructor <;> with_unfolding_all decide

/-- C3: whenever the attachment validator rejects the requested target (for
`move_absolute`) or any of the four key points (for `safe_y_pass`), the call
returns an error and posts no G-code to the printer, leaving the remote
machine untouched. -/
theorem C3_reject_before_send (h : Http) (rs : RemoteStatus)
    (cfg : PrinterConfig) (l : Limits) (x y z s ys ye zs zc ts aps : ℚ)
    (w : Bool) :
    (isErr (Printer.check_xyz_with_attachment (some l) cfg x y z) = true →
      isErr (Printer.move_absolute h rs cfg (some l) x y z s w).1 = true ∧
      hasGcode (Printer.move_absolute h rs cfg (some l) x y z s w).2 = false) ∧
    ((isErr (Printer.check_xyz_with_attachment (some l) cfg x ys zs) ||
      isErr (Printer.check_xyz_with_attachment (some l) cfg x ye zs) ||
      isErr (Printer.check_xyz_with_attachment (some l) cfg x ys zc) ||
      isErr (Printer.check_xyz_with_attachment (some l) cfg x ye zc)) = true →
      isErr (Printer.safe_y_pass h rs cfg (some l) x ys ye zs zc ts aps w).1 = true ∧
      hasGcode (Printer.safe_y_pass h rs cfg (some l) x ys ye zs zc ts aps w).2 = false) := by
  constructor
  · intro hbad
    unfold Printer.move_absolute
    cases hr : ensure_ready h rs with
    | error e => exact ⟨rfl, rfl⟩
    | ok u =>
      cases hh : ensure_homed h rs "xyz" with
      | error e => exact ⟨rfl, rfl⟩
      | ok u2 =>
        by_cases hs : s ≤ 0
        · rw [if_pos hs]; exact ⟨rfl, rfl⟩
        · rw [if_neg hs]
          cases hc : Printer.check_xyz_with_attachment (some l) cfg x y z with
          | error e => exact ⟨rfl, rfl⟩
          | ok u3 => rw [hc] at hbad; exact absurd hbad (by simp [isErr])
  · intro hbad
    unfold Printer.safe_y_pass
    cases hr : ensure_ready h rs with
    | error e => exact ⟨rfl, rfl⟩
    | ok u =>
      cases hh : ensure_homed h rs "xyz" with
      | error e => exact ⟨rfl, rfl⟩
      | ok u2 =>
        by_cases hs : ts ≤ 0 ∨ aps ≤ 0
        · rw [if_pos hs]; exact ⟨rfl, rfl⟩
        · rw [if_neg hs]
          cases hc1 : Printer.check_xyz_with_attachment (some l) cfg x ys zs with
          | error e => exact ⟨rfl, rfl⟩
          | ok u3 =>
            cases hc2 : Printer.check_xyz_with_attachment (some l) cfg x ye zs with
            | error e => exact ⟨rfl, rfl⟩
            | ok u4 =>
              cases hc3 : Printer.check_xyz_with_attachment (some l) cfg x ys zc with
              | error e => exact ⟨rfl, rfl⟩
              | ok u5 =>
                cases hc4 : Printer.check_xyz_with_attachment (some l) cfg x ye zc with
                | error e => exact ⟨rfl, rfl⟩
                | ok u6 =>
                  rw [hc1, hc2, hc3, hc4] at hbad
                  exact absurd hbad (by simp [isErr])

/-- Witness for C3: the spec's own example — limits X ∈ [0,400], offset
attach_max_x = 30, requested x = 390, so x + 30 = 420 > 400 — makes both
calls fail without posting anything. -/
theorem C3_witness :
    isErr (Printer.move_absolute hW rsW cfgW (some limW) 390 100 100 50 false).1 = true ∧
    hasGcode (Printer.move_absolute hW rsW cfgW (some limW) 390 100 100 50 false).2 = false ∧
    isErr (Printer.safe_y_pass hW rsW cfgW (some limW) 390 20 250 100 96 25 25 false).1 = true ∧
    hasGcode (Printer.safe_y_pass hW rsW cfgW (some limW) 390 20 250 100 96 25 25 false).2 = false := by
  have h1 := (C3_reject_before_send hW rsW cfgW limW 390 100 100 50 20 250 100 96 25 25 false).1
    (by with_unfolding_all decide)
  have h2 := (C3_reject_before_send hW rsW cfgW limW 390 100 100 50 20 250 100 96 25 25 false).2
    (by with_unfolding_all decide)
  exact ⟨h1.1, h1.2, h2.1, h2.2⟩

/-- C6 (amended): in `Printer.home` with `confirm=True`, when the typed
acknowledgment (stripped and upper-cased) is not `CONFIRM`, the call raises
and posts no G-code; `K2Pro.home`, by contrast, has no confirmation gate at
all — on a ready machine it posts `G28` with no confirmation ever requested. -/
theorem C6_confirmation_gate (h : Http) (rs : RemoteStatus)
    (cfg : PrinterConfig) (lim : Option Limits) (axes userInput : String) :
    (pyUpper (pyStrip userInput) ≠ "CONFIRM" →
      isErr (Printer.home h rs cfg lim axes true userInput).1 = true ∧
      hasGcode (Printer.home h rs cfg lim axes true userInput).2 = false) ∧
    (h.infoOk = true → rs.state = "ready" →
      (K2Pro.home h rs axes).2 = [Ev.ready, Ev.gcode [GLine.g28 (pyUpper axes)]] ∧
      (K2Pro.home h rs axes).2.any isConfirmEv = false) := by
  constructor
  · intro hne
    unfold Printer.home
    cases hr : ensure_ready h rs with
    | error e => exact ⟨rfl, rfl⟩
    | ok u =>
      rw [if_pos rfl, if_neg hne]
      exact ⟨rfl, rfl⟩
  · intro hinfo hstate
    unfold K2Pro.home ensure_ready
    rw [hinfo, if_pos rfl, if_pos hstate]
    exact ⟨rfl, rfl⟩

/-- Counterexample to C6 as stated: `K2Pro.home` on a ready machine succeeds
and posts the `G28` homing command even though no operator acknowledgment was
ever requested or received. -/
theorem C6_counterexample :
    (K2Pro.home hW rsW "XYZ").1 = Except.ok () ∧
    hasGcode (K2Pro.home hW rsW "XYZ").2 = true ∧
    (K2Pro.home hW rsW "XYZ").2.any isConfirmEv = false := by
  refine ⟨?_, ?_, ?_⟩ <;> decide

/-- Witness for C6 (amended): the answer " no " is not the acknowledgment, so
`Printer.home` raises and posts nothing; and `K2Pro.home` on the ready
machine posts `G28 XYZ` unconditionally. -/
theorem C6_witness :
    isErr (Printer.home hW rsW cfgW (some limW) "XYZ" true " no ").1 = true ∧
    hasGcode (Printer.home hW rsW cfgW (some limW) "XYZ" true " no ").2 = false ∧
    (K2Pro.home hW rsW "XYZ").2 = [Ev.ready, Ev.gcode [GLine.g28 (pyUpper "XYZ")]] :=
  ⟨((C6_confirmation_gate hW rsW cfgW (some limW) "XYZ" " no ").1 (by decide)).1,
   ((C6_confirmation_gate hW rsW cfgW (some limW) "XYZ" " no ").1 (by decide)).2,
   ((C6_confirmation_gate hW rsW cfgW (some limW) "XYZ" " no ").2 rfl rfl).1⟩

/-- C7: `K2Pro.move_relative` refuses any request whose Z delta exceeds
`max_abs_dz` in magnitude — the call errors and no G-code carrying the delta
is posted. -/
theorem C7_dz_clamp (h : Http) (rs : RemoteStatus) (dx dy dz : ℚ)
    (feed : ℤ) (w : Bool) (maxdz : ℚ) :
    maxdz < |dz| →
    isErr (K2Pro.move_relative h rs dx dy dz feed w maxdz).1 = true ∧
    hasGcode (K2Pro.move_relative h rs dx dy dz feed w maxdz).2 = false := by
  intro hdz
  unfold K2Pro.move_relative
  cases hr : ensure_ready h rs with
  | error e => exact ⟨rfl, rfl⟩
  | ok u =>
    cases hh : ensure_homed h rs "xyz" with
    | error e => exact ⟨rfl, rfl⟩
    | ok u2 =>
      rw [if_pos hdz]
      exact ⟨rfl, rfl⟩

/-- Witness for C7: dz = 10 against the default clamp 5 is refused with
nothing posted. -/
theorem C7_witness :
    isErr (K2Pro.move_relative hW rsW 0 0 10 3000 false 5).1 = true ∧
    hasGcode (K2Pro.move_relative hW rsW 0 0 10 3000 false 5).2 = false :=
  C7_dz_clamp hW rsW 0 0 10 3000 false 5 (by norm_num)

/-- C9 (amended): a relative move whose three deltas are all zero, invoked
with a nonnegative `max_abs_dz` bound (the default is 5.0), returns
successfully right after the ready and homed checks pass, posting no G-code;
with a negative bound the clamp fires first and the call raises instead —
still posting nothing. -/
theorem C9_zero_relative_noop (h : Http) (rs : RemoteStatus) (feed : ℤ)
    (w : Bool) (maxdz : ℚ) :
    0 ≤ maxdz → ensure_ready h rs = Except.ok () →
    ensure_homed h rs "xyz" = Except.ok () →
    K2Pro.move_relative h rs 0 0 0 feed w maxdz =
      (Except.ok (), [Ev.ready, Ev.homed "xyz"]) := by
  intro hmz hr hh
  unfold K2Pro.move_relative
  rw [hr, hh]
  have habs : ¬ maxdz < |(0 : ℚ)| := by
    rw [abs_zero]
    exact not_lt.mpr hmz
  rw [if_neg habs, if_pos ⟨rfl, rfl, rfl⟩]

/-- Witness for C9 (amended): on the ready, homed machine with the default
clamp, the all-zero relative move is a pure no-op. -/
theorem C9_witness :
    K2Pro.move_relative hW rsW 0 0 0 3000 false 5 =
      (Except.ok (), [Ev.ready, Ev.homed "xyz"]) :=
  C9_zero_relative_noop hW rsW 3000 false 5 (by norm_num) (by decide) (by decide)

/-- Counterexample to C9 as stated: with a negative `max_abs_dz` bound the
ready and homed checks pass (the trace records both), yet the all-zero
relative move raises the clamp error instead of returning successfully. -/
theorem C9_counterexample :
    (K2Pro.move_relative hW rsW 0 0 0 3000 false (-1)).1 =
      Except.error (Exc.printerError (ErrMsg.refuseDz 0 (-1))) ∧
    (K2Pro.move_relative hW rsW 0 0 0 3000 false (-1)).2 =
      [Ev.ready, Ev.homed "xyz"] := by
  constructor <;> with_unfolding_all decide

/-- C10: all range checks are boundary-inclusive — `_range_check` accepts
exactly the closed interval `[lo, hi]`, rejecting only strictly outside it,
and `validate_point_air` accepts exactly when each coordinate is inside the
closed axis interval and `z` is at least (inclusively) the configured
minimum safe height. -/
theorem C10_boundaries_inclusive (v lo hi : ℚ) (name : String) (h : Http)
    (rs : RemoteStatus) (cfg : K2ProConfig) (x y z : ℚ) :
    (range_check v lo hi name = Except.ok () ↔ lo ≤ v ∧ v ≤ hi) ∧
    (h.queryOk = true →
      (K2Pro.validate_point_air h rs cfg x y z = Except.ok () ↔
        ((rs.xmin ≤ x ∧ x ≤ rs.xmax) ∧ (rs.ymin ≤ y ∧ y ≤ rs.ymax) ∧
         (rs.zmin ≤ z ∧ z ≤ rs.zmax) ∧ cfg.z_air_min ≤ z))) := by
  refine ⟨range_check_ok_iff v lo hi name, ?_⟩
  intro hq
  unfold K2Pro.validate_point_air K2Pro.get_limits
  rw [if_pos hq]
  show (match range_check x (limitsOf rs).xmin (limitsOf rs).xmax "X" with
    | Except.error e => Except.error e
    | Except.ok _ =>
      match range_check y (limitsOf rs).ymin (limitsOf rs).ymax "Y" with
      | Except.error e => Except.error e
      | Except.ok _ =>
        match range_check z (limitsOf rs).zmin (limitsOf rs).zmax "Z" with
        | Except.error e => Except.error e
        | Except.ok _ =>
          if z < cfg.z_air_min then
            Except.error (Exc.printerError (ErrMsg.zBelowAirMin z cfg.z_air_min))
          else Except.ok ()) = Except.ok () ↔ _
  simp only [limitsOf]
  cases h1 : range_check x rs.xmin rs.xmax "X" with
  | error e =>
    have hx : ¬ (rs.xmin ≤ x ∧ x ≤ rs.xmax) := by
      intro hcc
      have hok := (range_check_ok_iff x rs.xmin rs.xmax "X").mpr hcc
      rw [h1] at hok
      exact Except.noConfusion hok
    exact iff_of_false (by simp) (by tauto)
  | ok u1 =>
    have hx := (range_check_ok_iff x rs.xmin rs.xmax "X").mp (by rw [h1])
    cases h2 : range_check y rs.ymin rs.ymax "Y" with
    | error e =>
      have hy : ¬ (rs.ymin ≤ y ∧ y ≤ rs.ymax) := by
        intro hcc
        have hok := (range_check_ok_iff y rs.ymin rs.ymax "Y").mpr hcc
        rw [h2] at hok
        exact Except.noConfusion hok
      exact iff_of_false (by simp) (by tauto)
    | ok u2 =>
      have hy := (range_check_ok_iff y rs.ymin rs.ymax "Y").mp (by rw [h2])
      cases h3 : range_check z rs.zmin rs.zmax "Z" with
      | error e =>
        have hz : ¬ (rs.zmin ≤ z ∧ z ≤ rs.zmax) := by
          intro hcc
          have hok := (range_check_ok_iff z rs.zmin rs.zmax "Z").mpr hcc
          rw [h3] at hok
          exact Except.noConfusion hok
        exact iff_of_false (by simp) (by tauto)
      | ok u3 =>
        have hz := (range_check_ok_iff z rs.zmin rs.zmax "Z").mp (by rw [h3])
        split_ifs with hfloor
        · exact iff_of_false (by simp) (by intro hcc; exact absurd hcc.2.2.2 (not_le.mpr hfloor))
        · exact iff_of_true rfl ⟨hx, hy, hz, not_lt.mp hfloor⟩

/-- Witness for C10: the value sitting exactly on the lower limit passes the
range check, and a point with z exactly equal to the 30 mm air floor (and on
the axis boundary x = 400) is accepted by `validate_point_air`. -/
theorem C10_witness :
    range_check 0 0 5 "X" = Except.ok () ∧
    K2Pro.validate_point_air hW rsW kcfgW 400 200 30 = Except.ok () :=
  ⟨(C10_boundaries_inclusive 0 0 5 "X" hW rsW kcfgW 400 200 30).1.mpr
     (by norm_num),
   ((C10_boundaries_inclusive 0 0 5 "X" hW rsW kcfgW 400 200 30).2 rfl).mpr
     (by norm_num [rsW, kcfgW])⟩

theorem chamberTry_spec (w : ChamberWorld) (obj : String) :
    (match Printer.chamberTry w obj with
      | Except.ok (some r) => some r
      | Except.ok none => none
      | Except.error _ => none) = Printer.specCandidateReading w obj := by
  unfold Printer.chamberTry Printer.specCandidateReading as_float
  cases hq : w.query obj with
  | error e => rfl
  | ok od =>
    cases od with
    | none => rfl
    | some data =>
      rcases data with ⟨temp, targ⟩
      cases temp with
      | none => rfl
      | some pv =>
        cases pv with
        | nonNumeric => rfl
        | num c =>
          cases targ with
          | none => rfl
          | some tv =>
            cases tv with
            | nonNumeric => rfl
            | num t => rfl

theorem chamberLoop_firstSome (w : ChamberWorld) :
    ∀ (objs : List String) (le0 : Option Exc),
      (Printer.chamberLoop w objs le0).1 =
        Printer.firstSome (objs.map (Printer.specCandidateReading w)) := by
  intro objs
  induction objs with
  | nil => intro le0; rfl
  | cons obj rest ih =>
    intro le0
    rw [List.map_cons]
    unfold Printer.chamberLoop Printer.firstSome
    rw [← chamberTry_spec w obj]
    cases hc : Printer.chamberTry w obj with
    | error e => exact ih (some e)
    | ok o =>
      cases o with
      | none => exact ih le0
      | some r => rfl

/-- C5: `get_chamber_temperature` probes exactly the fixed priority order
`temperature_sensor chamber`, `heater_generic chamber`,
`temperature_fan chamber`, `chamber`, and returns the (current, target)
reading of the first candidate that resolves to a mapping with a numeric
temperature field — a missing target gives `target = none`, any non-numeric
field fails that candidate and probing continues; if no candidate resolves,
it raises a `PrinterError` carrying the discovery hint built from the
objects listing. -/
theorem C5_chamber_priority (w : ChamberWorld) :
    Printer.get_chamber_temperature w =
      match Printer.firstSome
          (Printer.chamberCandidates.map (Printer.specCandidateReading w)) with
      | some r => Except.ok r
      | none =>
        Except.error (Exc.printerError
          (ErrMsg.chamberNotFound (Printer.discoveryChamberLike w))) := by
  unfold Printer.get_chamber_temperature
  have h := chamberLoop_firstSome w Printer.chamberCandidates none
  rw [← h]
  rcases hp : Printer.chamberLoop w Printer.chamberCandidates none with ⟨fst, snd⟩
  cases fst with
  | none => rfl
  | some r => rfl

theorem errPE_map {α β : Type} (f : α → β) (r : Except Exc α) :
    errPE (r.map f) = errPE r := by cases r <;> rfl

theorem ensure_ready_errPE (h : Http) (rs : RemoteStatus) :
    errPE (ensure_ready h rs) = true := by
  unfold ensure_ready
  split_ifs <;> rfl

theorem ensure_homedGo_errPE (homed : String) :
    ∀ cs : List Char, errPE (ensure_homedGo homed cs) = true := by
  intro cs
  induction cs with
  | nil => rfl
  | cons a rest ih =>
    unfold ensure_homedGo
    split_ifs
    · exact ih
    · rfl

theorem ensure_homed_errPE (h : Http) (rs : RemoteStatus) (axes : String) :
    errPE (ensure_homed h rs axes) = true := by
  unfold ensure_homed
  split_ifs
  · exact ensure_homedGo_errPE rs.homedAxes (pyLower axes).data
  · rfl

theorem range_check_errPE (v lo hi : ℚ) (n : String) :
    errPE (range_check v lo hi n) = true := by
  unfold range_check
  split_ifs <;> rfl

theorem runChecks_errPE (cs : List RC) : errPE (runChecks cs) = true := by
  induction cs with
  | nil => rfl
  | cons c rest ih =>
    rw [runChecks_cons]
    split_ifs <;> first | rfl | exact ih

theorem check_xyz_errPE (lim : Option Limits) (cfg : PrinterConfig) (x y z : ℚ) :
    errPE (Printer.check_xyz_with_attachment lim cfg x y z) = true := by
  cases lim with
  | none => rfl
  | some l =>
    rw [check_xyz_eq_runChecks]
    exact runChecks_errPE _

theorem refresh_limits_errPE (h : Http) (rs : RemoteStatus) :
    errPE (Printer.refresh_limits h rs) = true := by
  unfold Printer.refresh_limits
  split_ifs <;> rfl

theorem get_limits_errPE (h : Http) (rs : RemoteStatus) :
    errPE (K2Pro.get_limits h rs) = true := by
  unfold K2Pro.get_limits
  split_ifs <;> rfl

theorem send_gcode_errPE (h : Http) (script : List GLine) :
    errPE (send_gcode h script) = true := by
  unfold send_gcode
  split_ifs <;> rfl

theorem wait_movesGo_some_errPE (moving : Nat → Bool) (poll timeout : ℚ) :
    ∀ (fuel k : Nat) (r : Except Exc (Nat × Nat)),
      wait_movesGo moving poll timeout fuel k = some r → errPE r = true := by
  intro fuel
  induction fuel with
  | zero => intro k r hh; exact Option.noConfusion hh
  | succ fuel ih =>
    intro k r hh
    unfold wait_movesGo at hh
    split_ifs at hh
    · cases Option.some.inj hh; rfl
    · cases Option.some.inj hh; rfl
    · exact ih (k + 1) r hh

theorem wait_movesHttp_errPE (h : Http) (rs : RemoteStatus) (poll timeout : ℚ) :
    errPE (wait_movesHttp h rs poll timeout) = true := by
  unfold wait_movesHttp
  split_ifs with hq
  · cases hgo : wait_movesGo rs.moving poll timeout (waitFuel poll timeout) 0 with
    | none => rfl
    | some r => exact wait_movesGo_some_errPE rs.moving poll timeout _ 0 r hgo
  · rfl

theorem validate_air_errPE (h : Http) (rs : RemoteStatus) (cfg : K2ProConfig)
    (x y z : ℚ) : errPE (K2Pro.validate_point_air h rs cfg x y z) = true := by
  unfold K2Pro.validate_point_air
  split
  · next e heq =>
    have hl := get_limits_errPE h rs
    rw [heq] at hl
    exact hl
  · next l heq =>
    split
    · next e heq2 =>
      have hr := range_check_errPE x l.xmin l.xmax "X"
      rw [heq2] at hr
      exact hr
    · next u1 heq2 =>
      split
      · next e heq3 =>
        have hr := range_check_errPE y l.ymin l.ymax "Y"
        rw [heq3] at hr
        exact hr
      · next u2 heq3 =>
        split
        · next e heq4 =>
          have hr := range_check_errPE z l.zmin l.zmax "Z"
          rw [heq4] at hr
          exact hr
        · next u3 heq4 =>
          split_ifs <;> rfl

theorem get_chamber_errPE (w : ChamberWorld) :
    errPE (Printer.get_chamber_temperature w) = true := by
  unfold Printer.get_chamber_temperature
  rcases hp : Printer.chamberLoop w Printer.chamberCandidates none with ⟨fst, snd⟩
  cases fst <;> rfl

theorem move_absolute_errPE (h : Http) (rs : RemoteStatus) (cfg : PrinterConfig)
    (lim : Option Limits) (x y z s : ℚ) (w : Bool) :
    errPE (Printer.move_absolute h rs cfg lim x y z s w).1 = true := by
  unfold Printer.move_absolute
  cases hr : ensure_ready h rs with
  | error e =>
    have hx := ensure_ready_errPE h rs
    rw [hr] at hx
    exact hx
  | ok u =>
    cases hh : ensure_homed h rs "xyz" with
    | error e =>
      have hx := ensure_homed_errPE h rs "xyz"
      rw [hh] at hx
      exact hx
    | ok u2 =>
      by_cases hs : s ≤ 0
      · rw [if_pos hs]; rfl
      · rw [if_neg hs]
        cases hc : Printer.check_xyz_with_attachment lim cfg x y z with
        | error e =>
          have hx := check_xyz_errPE lim cfg x y z
          rw [hc] at hx
          exact hx
        | ok u3 =>
          cases hg : send_gcode h (Printer.absScript x y z s) with
          | error e =>
            have hx := send_gcode_errPE h (Printer.absScript x y z s)
            rw [hg] at hx
            exact hx
          | ok u4 =>
            cases w
            · rfl
            · show errPE ((wait_movesHttp h rs (1/5) 120).map (fun _ => ())) = true
              rw [errPE_map]
              exact wait_movesHttp_errPE h rs (1/5) 120

theorem safe_y_pass_errPE (h : Http) (rs : RemoteStatus) (cfg : PrinterConfig)
    (lim : Option Limits) (x ys ye zs zc ts aps : ℚ) (w : Bool) :
    errPE (Printer.safe_y_pass h rs cfg lim x ys ye zs zc ts aps w).1 = true := by
  unfold Printer.safe_y_pass
  cases hr : ensure_ready h rs with
  | error e =>
    have hx := ensure_ready_errPE h rs
    rw [hr] at hx
    exact hx
  | ok u =>
    cases hh : ensure_homed h rs "xyz" with
    | error e =>
      have hx := ensure_homed_errPE h rs "xyz"
      rw [hh] at hx
      exact hx
    | ok u2 =>
      by_cases hs : ts ≤ 0 ∨ aps ≤ 0
      · rw [if_pos hs]; rfl
      · rw [if_neg hs]
        cases hc1 : Printer.check_xyz_with_attachment lim cfg x ys zs with
        | error e =>
          have hx := check_xyz_errPE lim cfg x ys zs
          rw [hc1] at hx
          exact hx
        | ok u3 =>
          cases hc2 : Printer.check_xyz_with_attachment lim cfg x ye zs with
          | error e =>
            have hx := check_xyz_errPE lim cfg x ye zs
            rw [hc2] at hx
            exact hx
          | ok u4 =>
            cases hc3 : Printer.check_xyz_with_attachment lim cfg x ys zc with
            | error e =>
              have hx := check_xyz_errPE lim cfg x ys zc
              rw [hc3] at hx
              exact hx
            | ok u5 =>
              cases hc4 : Printer.check_xyz_with_attachment lim cfg x ye zc with
              | error e =>
                have hx := check_xyz_errPE lim cfg x ye zc
                rw [hc4] at hx
                exact hx
              | ok u6 =>
                cases hg : send_gcode h (Printer.sweepScript cfg x ys ye zs zc ts aps) with
                | error e =>
                  have hx := send_gcode_errPE h (Printer.sweepScript cfg x ys ye zs zc ts aps)
                  rw [hg] at hx
                  exact hx
                | ok u7 =>
                  cases w
                  · rfl
                  · cases hg2 : send_gcode h [GLine.m400] with
                    | error e =>
                      have hx := send_gcode_errPE h [GLine.m400]
                      rw [hg2] at hx
                      exact hx
                    | ok u8 => rfl

theorem move_relative_errPE (h : Http) (rs : RemoteStatus) (dx dy dz : ℚ)
    (feed : ℤ) (w : Bool) (maxdz : ℚ) :
    errPE (K2Pro.move_relative h rs dx dy dz feed w maxdz).1 = true := by
  unfold K2Pro.move_relative
  cases hr : ensure_ready h rs with
  | error e =>
    have hx := ensure_ready_errPE h rs
    rw [hr] at hx
    exact hx
  | ok u =>
    cases hh : ensure_homed h rs "xyz" with
    | error e =>
      have hx := ensure_homed_errPE h rs "xyz"
      rw [hh] at hx
      exact hx
    | ok u2 =>
      by_cases hdz : maxdz < |dz|
      · rw [if_pos hdz]; rfl
      · rw [if_neg hdz]
        by_cases hzero : dx = 0 ∧ dy = 0 ∧ dz = 0
        · rw [if_pos hzero]; rfl
        · rw [if_neg hzero]
          cases hg : send_gcode h (K2Pro.relScript dx dy dz feed) with
          | error e =>
            have hx := send_gcode_errPE h (K2Pro.relScript dx dy dz feed)
            rw [hg] at hx
            exact hx
          | ok u3 =>
            cases w
            · rfl
            · show errPE ((wait_movesHttp h rs (1/5) 60).map (fun _ => ())) = true
              rw [errPE_map]
              exact wait_movesHttp_errPE h rs (1/5) 60

theorem move_line_air_errPE (h : Http) (rs : RemoteStatus) (cfg : K2ProConfig)
    (x1 y1 z1 x2 y2 z2 s : ℚ) (w : Bool) :
    errPE (K2Pro.move_line_air h rs cfg x1 y1 z1 x2 y2 z2 s w).1 = true := by
  unfold K2Pro.move_line_air
  cases hr : ensure_ready h rs with
  | error e =>
    have hx := ensure_ready_errPE h rs
    rw [hr] at hx
    exact hx
  | ok u =>
    cases hh : ensure_homed h rs "xyz" with
    | error e =>
      have hx := ensure_homed_errPE h rs "xyz"
      rw [hh] at hx
      exact hx
    | ok u2 =>
      by_cases hs : s ≤ 0
      · rw [if_pos hs]; rfl
      · rw [if_neg hs]
        cases hc1 : K2Pro.validate_point_air h rs cfg x1 y1 z1 with
        | error e =>
          have hx := validate_air_errPE h rs cfg x1 y1 z1
          rw [hc1] at hx
          exact hx
        | ok u3 =>
          cases hc2 : K2Pro.validate_point_air h rs cfg x2 y2 z2 with
          | error e =>
            have hx := validate_air_errPE h rs cfg x2 y2 z2
            rw [hc2] at hx
            exact hx
          | ok u4 =>
            cases hg : send_gcode h (K2Pro.lineScript x1 y1 z1 x2 y2 z2 s) with
            | error e =>
              have hx := send_gcode_errPE h (K2Pro.lineScript x1 y1 z1 x2 y2 z2 s)
              rw [hg] at hx
              exact hx
            | ok u5 =>
              cases w
              · rfl
              · show errPE ((wait_movesHttp h rs (1/5) 60).map (fun _ => ())) = true
                rw [errPE_map]
                exact wait_movesHttp_errPE h rs (1/5) 60

/-- C8: every failure surfaced by the modelled library operations — transport
failure (non-success HTTP status, e.g. in `refresh_limits`), precondition
failure (not ready / axis not homed), validation failure, wait-loop timeout,
and thermal-object-not-found — is the single error kind `PrinterError`, never
any other exception class. -/
theorem C8_single_error_kind (h : Http) (rs : RemoteStatus)
    (cfg : PrinterConfig) (kcfg : K2ProConfig) (lim : Option Limits)
    (w : ChamberWorld)
    (x y z s ys ye zs zc ts aps x1 y1 z1 x2 y2 z2 dx dy dz maxdz poll timeout : ℚ)
    (feed : ℤ) (wt : Bool) (e : Exc) :
    (Printer.refresh_limits h rs = Except.error e → isPE e = true) ∧
    (wait_movesHttp h rs poll timeout = Except.error e → isPE e = true) ∧
    (Printer.get_chamber_temperature w = Except.error e → isPE e = true) ∧
    ((Printer.move_absolute h rs cfg lim x y z s wt).1 = Except.error e → isPE e = true) ∧
    ((Printer.safe_y_pass h rs cfg lim x ys ye zs zc ts aps wt).1 = Except.error e →
      isPE e = true) ∧
    ((K2Pro.move_relative h rs dx dy dz feed wt maxdz).1 = Except.error e →
      isPE e = true) ∧
    ((K2Pro.move_line_air h rs kcfg x1 y1 z1 x2 y2 z2 s wt).1 = Except.error e →
      isPE e = true) := by
  refine ⟨?_, ?_, ?_, ?_, ?_, ?_, ?_⟩ <;> intro hh
  · have hx := refresh_limits_errPE h rs
    rw [hh] at hx
    exact hx
  · have hx := wait_movesHttp_errPE h rs poll timeout
    rw [hh] at hx
    exact hx
  · have hx := get_chamber_errPE w
    rw [hh] at hx
    exact hx
  · have hx := move_absolute_errPE h rs cfg lim x y z s wt
    rw [hh] at hx
    exact hx
  · have hx := safe_y_pass_errPE h rs cfg lim x ys ye zs zc ts aps wt
    rw [hh] at hx
    exact hx
  · have hx := move_relative_errPE h rs dx dy dz feed wt maxdz
    rw [hh] at hx
    exact hx
  · have hx := move_line_air_errPE h rs kcfg x1 y1 z1 x2 y2 z2 s wt
    rw [hh] at hx
    exact hx

/-- Witness for C8: a failing status query surfaces as a `PrinterError`
(transport class), and so does an absent chamber object (domain-object
class). -/
theorem C8_witness :
    isPE (Exc.printerError (ErrMsg.httpFail "GET" "/printer/objects/query" 500)) = true ∧
    isPE (Exc.printerError (ErrMsg.chamberNotFound [])) = true :=
  ⟨(C8_single_error_kind hBad rsW cfgW kcfgW (some limW) wEmpty
      0 0 0 0 0 0 0 0 0 0 0 0 0 0 0 0 0 0 0 0 1 1 3000 false
      (Exc.printerError (ErrMsg.httpFail "GET" "/printer/objects/query" 500))).1 rfl,
   (C8_single_error_kind hW rsW cfgW kcfgW (some limW) wEmpty
      0 0 0 0 0 0 0 0 0 0 0 0 0 0 0 0 0 0 0 0 1 1 3000 false
      (Exc.printerError (ErrMsg.chamberNotFound []))).2.2.1 rfl⟩
